import Mathlib

/-!
Shallow embedding of the execution orchestrator in
`backend/executor/sandbox.py` (`run_code`, `run_local`, `stop_local`,
`_make_friendly_error`, `_write_uploaded_files`), together with theorems
settling the specification claims about it.

Python strings are modelled as Lean `String`; the handful of Python string
operations the code uses (`in`, `startswith`, slicing, `strip`,
`splitlines`, `"\n".join`, `pathlib.Path(...).name`) are given executable
Lean counterparts below, defined on the character list.  Newlines are
modelled as `\n` only (the orchestrator only ever consumes text it captured
from a pipe and stripped).
-/

namespace Sandbox

/-- Character-list test that `pre` matches the front of the second list
(the core of Python `str.startswith`). -/
def leadMatch : List Char → List Char → Bool
  | [], _ => true
  | _ :: _, [] => false
  | a :: as, b :: bs => a == b && leadMatch as bs

/-- Character-list test that `needle` occurs contiguously somewhere in the
second list (the core of Python `needle in hay`). -/
def listContains (needle : List Char) : List Char → Bool
  | [] => leadMatch needle []
  | b :: bs => leadMatch needle (b :: bs) || listContains needle bs

/-- Python `needle in hay` on strings. -/
def strContains (hay needle : String) : Bool :=
  listContains needle.toList hay.toList

/-- Python `s.startswith(pre)`. -/
def pyStartswith (s pre : String) : Bool :=
  leadMatch pre.toList s.toList

/-- Python `s[n:]`. -/
def pyDrop (s : String) (n : Nat) : String :=
  ⟨s.toList.drop n⟩

/-- Characters removed by Python `str.strip()`. -/
def isPySpace (c : Char) : Bool :=
  c == ' ' || c == '\t' || c == '\n' || c == '\r' || c == '\x0b' || c == '\x0c'

/-- Python `s.strip()`. -/
def pyStrip (s : String) : String :=
  ⟨((s.toList.dropWhile isPySpace).reverse.dropWhile isPySpace).reverse⟩

/-- Splits a character list at every occurrence of `sep`; `cur` is the
(reversed) current piece. -/
def splitCharAux (sep : Char) (cur : List Char) : List Char → List String
  | [] => [⟨cur.reverse⟩]
  | c :: cs =>
    if c == sep then (⟨cur.reverse⟩ : String) :: splitCharAux sep [] cs
    else splitCharAux sep (c :: cur) cs

/-- Splits a string at every occurrence of `sep` (Python `s.split(sep)` with
all pieces kept). -/
def splitChar (sep : Char) (s : String) : List String :=
  splitCharAux sep [] s.toList

/-- Python `s.splitlines()` for text whose only line separator is `\n` (the
orchestrator always strips the text first, so there is no trailing
newline). -/
def pySplitlines (s : String) : List String :=
  if s.toList.isEmpty then [] else splitChar '\n' s

/-- Python `"\n".join(lines)`. -/
def pyJoinLines (lines : List String) : String :=
  String.intercalate "\n" lines

/-- Python `pathlib.PurePosixPath(s).name`: the final path component, with
empty and `.` components dropped during parsing (`..` is kept, as in
`pathlib`). -/
def pathName (s : String) : String :=
  (((splitChar '/' s).filter (fun c => !(c == "" || c == "."))).getLast?).getD ""

/-- Result dictionary returned by both runners:
`{"image_b64": ..., "logs": ..., "error": ...}`. -/
structure ExecResult where
  image_b64 : Option String
  logs : String
  error : String
deriving Repr, DecidableEq

/-- Embedding of `_make_friendly_error` from `sandbox.py` (the string
literals reproduce the source file byte for byte, including its
mojibake-encoded emoji). -/
def make_friendly_error (raw : String) : String :=
  if strContains raw "ImportError" || strContains raw "ModuleNotFoundError" then
    "ğŸš« Import blocked: " ++ raw ++
      "\nOnly `import cv2` and `import numpy as np` are allowed."
  else if strContains raw "SyntaxError" then
    "âœï¸ Syntax error in your code: " ++ raw
  else if strContains raw "NameError" then
    "â“ Name not found: " ++ raw ++ "\nDid you define this variable?"
  else if strContains raw "TypeError" then
    "ğŸ”§ Type error: " ++ raw
  else if strContains raw "AttributeError" then
    "ğŸ” Attribute error: " ++ raw ++ "\nCheck the OpenCV function name."
  else
    "âŒ Error: " ++ raw

example : make_friendly_error "ImportError: cv2" =
    "ğŸš« Import blocked: ImportError: cv2\nOnly `import cv2` and `import numpy as np` are allowed." := by
  decide

example : pathName "../../evil.txt" = "evil.txt" := by decide

example : pyStrip "  a\nb\n" = "a\nb" := by decide

example : pySplitlines "a\n\nb" = ["a", "", "b"] := by decide

example : pyDrop "IMAGE:xyz" 6 = "xyz" := by decide

/-- Outcome of one `run_code` invocation, seen from the orchestrator: either
some orchestration step raised an `Exception` with message `msg` (temporary
directory creation, file writes, spawning), or `subprocess.run` raised
`TimeoutExpired`, or the child completed and its captured raw `stdout` and
`stderr` are available. -/
inductive RunEvent where
  | exc (msg : String)
  | timeout
  | completed (stdout stderr : String)
deriving Repr, DecidableEq

/-- Python exceptions that can escape the `try` block of `run_code`. -/
inductive PyError where
  | timeoutExpired
  | generic (msg : String)
deriving Repr, DecidableEq

/-- Embedding of the stdout loop of `run_code` (lines 68-74 of
`sandbox.py`): `IMAGE:` lines overwrite the image payload, `INFO:` lines
contribute their remainder to the log lines, all other lines are kept
verbatim.  `img` and `logs` are the loop accumulators. -/
def parseStdoutLoop : List String → Option String → List String → Option String × List String
  | [], img, logs => (img, logs)
  | l :: ls, img, logs =>
    if pyStartswith l "IMAGE:" then parseStdoutLoop ls (some (pyDrop l 6)) logs
    else if pyStartswith l "INFO:" then parseStdoutLoop ls img (logs ++ [pyDrop l 5])
    else parseStdoutLoop ls img (logs ++ [l])

/-- Embedding of the stderr loop of `run_code` (lines 76-81 of
`sandbox.py`): `EXEC_ERROR:` lines overwrite the error with their friendly
translation, all other lines are appended to the log lines. -/
def parseStderrLoop : List String → String → List String → String × List String
  | [], err, logs => (err, logs)
  | l :: ls, err, logs =>
    if pyStartswith l "EXEC_ERROR:" then
      parseStderrLoop ls (make_friendly_error (pyDrop l 11)) logs
    else parseStderrLoop ls err (logs ++ [l])

/-- Body of the `try` block of `run_code`: workspace setup, spawn and wait
(whose faults surface as the `Except.error` cases) followed by the stream
parse on normal completion. -/
def run_code_try : RunEvent → Except PyError ExecResult
  | .exc m => .error (.generic m)
  | .timeout => .error .timeoutExpired
  | .completed out err =>
    let stdout := pyStrip out
    let stderr := pyStrip err
    let parsedOut := parseStdoutLoop (pySplitlines stdout) none []
    let parsedErr :=
      if stderr.toList.isEmpty then ("", parsedOut.2)
      else parseStderrLoop (pySplitlines stderr) "" parsedOut.2
    .ok ⟨parsedOut.1, pyJoinLines parsedErr.2, parsedErr.1⟩

/-- Static template returned by `run_code` when the child exceeds the
10-second deadline (with `TIMEOUT_SECONDS = 10` interpolated). -/
def timeoutMessage : String :=
  "â± Execution timed out after 10 seconds. Check for infinite loops."

/-- Embedding of `run_code` from `sandbox.py`: the `try` body with its two
`except` clauses (`subprocess.TimeoutExpired`, then `Exception`), each of
which converts the fault into a result dictionary.  Being a total Lean
function into `ExecResult`, it renders the no-throw boundary of the
Python function, whose whole body sits inside the `try`. -/
def run_code (ev : RunEvent) : ExecResult :=
  match run_code_try ev with
  | .ok r => r
  | .error .timeoutExpired => ⟨none, "", timeoutMessage⟩
  | .error (.generic m) => ⟨none, "", "Execution failed: " ++ m⟩

/-- Loop body of `_write_uploaded_files`: for each `(filename, content)`
pair the name is sanitized with `Path(filename).name`, empty sanitized
names are skipped, and the remaining pairs are written in order. -/
def write_uploaded_files_list {α : Type} : List (String × α) → List (String × α)
  | [] => []
  | (n, c) :: rest =>
    let safe := pathName n
    if safe = "" then write_uploaded_files_list rest
    else (safe, c) :: write_uploaded_files_list rest

/-- Embedding of `_write_uploaded_files`: the ordered list of
`(entry name, content)` pairs written into the run directory.  `none`
models passing `None` (the `if not uploaded_files: return` guard, which
also covers the empty list through the loop doing nothing). -/
def write_uploaded_files {α : Type} : Option (List (String × α)) → List (String × α)
  | none => []
  | some fs => write_uploaded_files_list fs

/-- A live child-process handle as `stop_local` and the cleanup watcher see
it: `alive` is `poll() is None` at the moment the registry is consulted,
`exitsInGrace` says whether the process exits within the 3-second
`wait` after `terminate()`. -/
structure ProcHandle where
  pid : Nat
  alive : Bool
  exitsInGrace : Bool
deriving Repr, DecidableEq

/-- Termination requests issued against a child process: a `terminate()`
honoured within the grace period, or a `terminate()` escalated to
`kill()`. -/
inductive StopAction where
  | term (pid : Nat)
  | kill (pid : Nat)
deriving Repr, DecidableEq

/-- State of the process registry: `_active_local_process` (one `Option`
slot, so it structurally holds zero or one handle) together with the
ordered log of termination requests the orchestrator has issued.  Every
Python block that runs under `_active_local_lock` is modelled as one atomic
Lean transition on this state. -/
structure RegState where
  slot : Option ProcHandle
  log : List StopAction
deriving Repr, DecidableEq

/-- Return dictionary of `stop_local`. -/
structure StopResult where
  stopped : Bool
  message : String
deriving Repr, DecidableEq

/-- Embedding of `stop_local`: under the lock the slot is read and cleared;
then, if a process was registered and still running, it is terminated
(escalating to kill after the 3-second grace period) and
`{"stopped": True}` is returned, otherwise `{"stopped": False}`. -/
def stop_local (s : RegState) : RegState × StopResult :=
  let proc := s.slot
  let s1 : RegState := { s with slot := none }
  match proc with
  | some p =>
    if p.alive then
      if p.exitsInGrace then
        ({ s1 with log := s1.log ++ [.term p.pid] }, ⟨true, "Local process stopped."⟩)
      else
        ({ s1 with log := s1.log ++ [.kill p.pid] }, ⟨true, "Local process stopped."⟩)
    else (s1, ⟨false, "No local process was running."⟩)
  | none => (s1, ⟨false, "No local process was running."⟩)

/-- Environment of one `run_local` invocation: whether materializing the
source/assets raises (these writes happen before the `try` block), whether
`subprocess.Popen` raises (inside the `try`, with the exception message),
and the identity and future grace behaviour of the child on success. -/
structure LaunchEnv where
  writeFails : Bool
  popenFails : Option String
  newPid : Nat
  newExitsInGrace : Bool
deriving Repr, DecidableEq

/-- Observable outcome of `run_local`: the registry state afterwards,
whether the freshly created scratch directory was synchronously cleaned up
by this call, and either an exception that escaped to the caller or the
returned result dictionary. -/
inductive LaunchOutcome where
  | raised (state : RegState) (cleanedUp : Bool) (msg : String)
  | returned (state : RegState) (cleanedUp : Bool) (r : ExecResult)
deriving Repr, DecidableEq

/-- Embedding of `run_local`: stop any previous local process, create the
scratch directory and materialize source and assets (outside the `try`, so
a fault there escapes to the caller with nothing cleaned up), then spawn
the child; a `Popen` fault is caught, the workspace cleaned up and a
launch-failure result returned; on success the new handle is registered and
the static desktop-instruction result returned (workspace cleanup is
deferred to the background watcher). -/
def run_local (env : LaunchEnv) (s : RegState) : LaunchOutcome :=
  let s1 := (stop_local s).1
  if env.writeFails then .raised s1 false "materialize failed"
  else
    match env.popenFails with
    | some e => .returned s1 true ⟨none, "", "Failed to launch: " ++ e⟩
    | none =>
      .returned { s1 with slot := some ⟨env.newPid, true, env.newExitsInGrace⟩ } false
        ⟨none,
          "Running on your desktop â€” an OpenCV window should appear.\nPress 'q' in the OpenCV window to quit.",
          ""⟩

/-- Embedding of the registry transition of the `_cleanup` watcher thread:
after the child exits, under the lock the slot is cleared only if it still
holds this very handle. -/
def watcher_clear (p : ProcHandle) (s : RegState) : RegState :=
  if s.slot = some p then { s with slot := none } else s

example :
    run_code (.completed "IMAGE:abc\nINFO:hello\nplain" "") =
      ⟨some "abc", "hello\nplain", ""⟩ := by decide

example : run_code .timeout = ⟨none, "", timeoutMessage⟩ := by decide

example :
    run_code (.completed "IMAGE:abc" "EXEC_ERROR:TypeError: bad") =
      ⟨some "abc", "", "ğŸ”§ Type error: TypeError: bad"⟩ := by decide

example :
    stop_local ⟨some ⟨7, true, true⟩, []⟩ =
      (⟨none, [.term 7]⟩, ⟨true, "Local process stopped."⟩) := by decide

/-! Specification-side definitions.  These render the spec's wording of the
line protocol and of the error-translation table; the claim theorems relate
them to the source-derived definitions above. -/

/-- Payload of an `IMAGE:`-tagged stdout line, if the line carries one
(spec wording for the image channel of the line protocol). -/
def imgPayload (l : String) : Option String :=
  if pyStartswith l "IMAGE:" then some (pyDrop l 6) else none

/-- Contribution of a non-`IMAGE:` stdout line to the log text: an `INFO:`
line contributes its remainder, any other line contributes verbatim. -/
def infoOrPlain (l : String) : String :=
  if pyStartswith l "INFO:" then pyDrop l 5 else l

/-- Payload of an `EXEC_ERROR:`-tagged stderr line, if the line carries one. -/
def errPayload (l : String) : Option String :=
  if pyStartswith l "EXEC_ERROR:" then some (pyDrop l 11) else none

/-- Ordered error-translation table as the spec words it: each category is
a set of trigger substrings with its learner-oriented rewriting, in the
fixed order blocked import, syntax error, undefined name, type mismatch,
attribute error. -/
def friendlyRules : List (List String × (String → String)) :=
  [ (["ImportError", "ModuleNotFoundError"], fun raw =>
      "ğŸš« Import blocked: " ++ raw ++
        "\nOnly `import cv2` and `import numpy as np` are allowed."),
    (["SyntaxError"], fun raw => "âœï¸ Syntax error in your code: " ++ raw),
    (["NameError"], fun raw =>
      "â“ Name not found: " ++ raw ++ "\nDid you define this variable?"),
    (["TypeError"], fun raw => "ğŸ”§ Type error: " ++ raw),
    (["AttributeError"], fun raw =>
      "ğŸ” Attribute error: " ++ raw ++ "\nCheck the OpenCV function name.") ]

/-- First-match-wins application of an ordered rule table: the first rule
one of whose trigger substrings occurs in the raw message is applied;
a message matching no rule is wrapped in the generic error shape. -/
def applyFirstRule : List (List String × (String → String)) → String → String
  | [], raw => "âŒ Error: " ++ raw
  | (pats, f) :: rest, raw =>
    if pats.any (fun p => strContains raw p) then f raw else applyFirstRule rest raw

/-! Helper lemmas. -/

theorem strToList_append (a b : String) : (a ++ b).toList = a.toList ++ b.toList :=
  String.data_append a b

theorem leadMatch_self_append (n t : List Char) : leadMatch n (n ++ t) = true := by
  induction n with
  | nil => rfl
  | cons a as ih => simp [leadMatch, ih]

theorem listContains_of_leadMatch (n h : List Char) (hm : leadMatch n h = true) :
    listContains n h = true := by
  cases h with
  | nil => exact hm
  | cons b bs => simp [listContains, hm]

theorem listContains_append (pre n post : List Char) :
    listContains n (pre ++ (n ++ post)) = true := by
  induction pre with
  | nil =>
    apply listContains_of_leadMatch
    simpa using leadMatch_self_append n post
  | cons p ps ih => simp [listContains, ih]

theorem listContains_parts (n hay P S : List Char) (h : hay = P ++ (n ++ S)) :
    listContains n hay = true := by
  subst h
  exact listContains_append P n S

theorem strContains_parts (hay n : String) (P S : List Char)
    (h : hay.toList = P ++ (n.toList ++ S)) : strContains hay n = true :=
  listContains_parts n.toList hay.toList P S h

theorem append_left_ne_empty (a b : String) (ha : a.length ≠ 0) : a ++ b ≠ "" := by
  intro h
  have h2 := congrArg String.length h
  rw [String.length_append a b] at h2
  rw [show ("" : String).length = 0 from rfl] at h2
  omega

theorem getLast?_cons_or {α : Type} (a : α) (t : List α) :
    (a :: t).getLast? = (t.getLast?).or (some a) := by
  induction t generalizing a with
  | nil => rfl
  | cons b u ih =>
    rw [List.getLast?_cons_cons, ih b]
    cases u.getLast? <;> rfl

theorem lastWins_cons {α : Type} (a : α) (t : List α) (o : Option α) :
    ((a :: t).getLast?).or o = (t.getLast?).or (some a) := by
  rw [getLast?_cons_or]
  cases t.getLast? <;> rfl

theorem elim_lastWins {β : Type} (a : String) (t : List String) (e : β) (f : String → β) :
    (((a :: t).getLast?).elim e f) = ((t.getLast?).elim (f a) f) := by
  rw [getLast?_cons_or]
  cases t.getLast? <;> rfl

theorem parseStdoutLoop_eq (lines : List String) :
    ∀ (img0 : Option String) (logs0 : List String),
      parseStdoutLoop lines img0 logs0 =
        (((lines.filterMap imgPayload).getLast?).or img0,
          logs0 ++ (lines.filter (fun l => !pyStartswith l "IMAGE:")).map infoOrPlain) := by
  induction lines with
  | nil => intro img0 logs0; simp [parseStdoutLoop]
  | cons l ls ih =>
    intro img0 logs0
    cases h1 : pyStartswith l "IMAGE:" with
    | true =>
      simp only [parseStdoutLoop, h1, if_true, ih, imgPayload, List.filterMap_cons,
        List.filter_cons, Bool.not_true, Bool.false_eq_true, if_false, lastWins_cons]
    | false =>
      cases h2 : pyStartswith l "INFO:" with
      | true =>
        simp only [parseStdoutLoop, h1, h2, if_true, Bool.false_eq_true, if_false, ih,
          imgPayload, infoOrPlain, List.filterMap_cons, List.filter_cons, Bool.not_false,
          if_true, List.map_cons, List.append_assoc, List.singleton_append]
      | false =>
        simp only [parseStdoutLoop, h1, h2, Bool.false_eq_true, if_false, ih,
          imgPayload, infoOrPlain, List.filterMap_cons, List.filter_cons, Bool.not_false,
          if_true, List.map_cons, List.append_assoc, List.singleton_append]

theorem parseStderrLoop_eq (lines : List String) :
    ∀ (err0 : String) (logs0 : List String),
      parseStderrLoop lines err0 logs0 =
        (((lines.filterMap errPayload).getLast?).elim err0 make_friendly_error,
          logs0 ++ lines.filter (fun l => !pyStartswith l "EXEC_ERROR:")) := by
  induction lines with
  | nil => intro err0 logs0; simp [parseStderrLoop]
  | cons l ls ih =>
    intro err0 logs0
    cases h1 : pyStartswith l "EXEC_ERROR:" with
    | true =>
      simp only [parseStderrLoop, h1, if_true, ih, errPayload, List.filterMap_cons,
        List.filter_cons, Bool.not_true, Bool.false_eq_true, if_false, elim_lastWins]
    | false =>
      simp only [parseStderrLoop, h1, Bool.false_eq_true, if_false, ih, errPayload,
        List.filterMap_cons, List.filter_cons, Bool.not_false, if_true,
        List.append_assoc, List.singleton_append]

theorem stop_local_clears (s : RegState) : (stop_local s).1.slot = none := by
  obtain ⟨slot, log⟩ := s
  cases slot with
  | none => rfl
  | some p =>
    cases hp : p.alive <;> cases hg : p.exitsInGrace <;> simp [stop_local, hp, hg]

theorem or_none_id {α : Type} (o : Option α) : o.or none = o := by
  cases o <;> rfl

theorem strContains_sandwich (pre raw suf : String) :
    strContains (pre ++ raw ++ suf) raw = true := by
  apply strContains_parts _ _ pre.toList suf.toList
  simp [strToList_append, List.append_assoc]

theorem strContains_suffix0 (pre raw : String) :
    strContains (pre ++ raw) raw = true := by
  apply strContains_parts _ _ pre.toList []
  simp [strToList_append]

theorem mem_of_getLast? {α : Type} {l : List α} {a : α} (h : l.getLast? = some a) :
    a ∈ l := by
  induction l with
  | nil => cases h
  | cons b t ih =>
    cases t with
    | nil =>
      rw [show ([b] : List α).getLast? = some b from rfl] at h
      injection h with h
      subst h
      exact List.mem_singleton.mpr rfl
    | cons c u =>
      rw [List.getLast?_cons_cons] at h
      exact List.mem_cons_of_mem b (ih h)

theorem splitCharAux_no_sep (sep : Char) :
    ∀ (cs cur : List Char), (∀ c ∈ cur, c ≠ sep) →
      ∀ t ∈ splitCharAux sep cur cs, ∀ c ∈ t.toList, c ≠ sep := by
  intro cs
  induction cs with
  | nil =>
    intro cur hcur t ht c hc
    rw [show splitCharAux sep cur [] = [⟨cur.reverse⟩] from rfl] at ht
    rcases List.mem_cons.mp ht with h1 | h2
    · subst h1
      exact hcur c (List.mem_reverse.mp hc)
    · cases h2
  | cons a as ih =>
    intro cur hcur t ht c hc
    by_cases ha : (a == sep) = true
    · rw [show splitCharAux sep cur (a :: as) =
          (⟨cur.reverse⟩ : String) :: splitCharAux sep [] as from by
        simp [splitCharAux, ha]] at ht
      rcases List.mem_cons.mp ht with h1 | h2
      · subst h1
        exact hcur c (List.mem_reverse.mp hc)
      · exact ih [] (by intro x hx; cases hx) t h2 c hc
    · rw [show splitCharAux sep cur (a :: as) = splitCharAux sep (a :: cur) as from by
        simp [splitCharAux, ha]] at ht
      refine ih (a :: cur) ?_ t ht c hc
      intro x hx
      rcases List.mem_cons.mp hx with h1 | h2
      · subst h1
        intro heq
        exact ha (by simp [heq])
      · exact hcur x h2

theorem pathName_no_sep (s : String) : ∀ c ∈ (pathName s).toList, c ≠ '/' := by
  unfold pathName
  cases hlast : ((splitChar '/' s).filter (fun c => !(c == "" || c == "."))).getLast? with
  | none =>
    intro c hc
    exact absurd hc (by simp [Option.getD])
  | some t =>
    intro c hc
    have ht2 : t ∈ splitChar '/' s := List.mem_of_mem_filter (mem_of_getLast? hlast)
    exact splitCharAux_no_sep '/' s.toList [] (by intro x hx; cases hx) t ht2 c
      (by simpa [Option.getD] using hc)

/-! Claim theorems. -/

/-- C1: every failure mode of the bounded runner (launch or I/O fault,
timeout) is caught by an `except` clause and resolves into the error field
of a well-formed result; `run_code` being a total function into
`ExecResult` renders that no exception crosses its boundary, and whenever
the body raises, the returned result carries a non-empty error and no
image. -/
theorem run_code_faults_resolve_to_error_field (ev : RunEvent) (e : PyError)
    (h : run_code_try ev = Except.error e) :
    (run_code ev).error ≠ "" ∧ (run_code ev).image_b64 = none := by
  cases ev with
  | exc m =>
    exact ⟨append_left_ne_empty "Execution failed: " m (by decide), rfl⟩
  | timeout =>
    exact ⟨by decide, rfl⟩
  | completed out err =>
    exact absurd h (by simp [run_code_try])

/-- Witness for C1 at the timeout failure mode. -/
theorem run_code_faults_resolve_to_error_field_witness :
    (run_code RunEvent.timeout).error ≠ "" ∧
    (run_code RunEvent.timeout).image_b64 = none :=
  run_code_faults_resolve_to_error_field RunEvent.timeout PyError.timeoutExpired rfl

/-- C2 counterexample: when materializing the source (step 3) fails, the
foreground launch does NOT return a launch-failure result — the exception
escapes to the caller and the partially-created workspace is not cleaned
up, because in `run_local` the `mkdtemp`/`write_text`/asset writes sit
before the `try` block. -/
theorem run_local_materialize_fault_escapes :
    run_local ⟨true, none, 7, true⟩ ⟨none, []⟩ =
      LaunchOutcome.raised ⟨none, []⟩ false "materialize failed" ∧
    run_local ⟨true, none, 7, true⟩ ⟨none, []⟩ ≠
      LaunchOutcome.returned ⟨none, []⟩ true
        ⟨none, "", "Failed to launch: materialize failed"⟩ := by
  exact ⟨rfl, by decide⟩

/-- C2 (amended): when spawning the child process (step 4) fails, the
foreground launch synchronously cleans up the workspace, registers no
handle, and returns a result whose non-empty error explains the launch
failure; a fault while materializing the source/assets (step 3), however,
escapes to the caller with no cleanup. -/
theorem run_local_spawn_fault_recovers (env : LaunchEnv) (s : RegState) (e : String)
    (hw : env.writeFails = false) (hp : env.popenFails = some e) :
    run_local env s =
      LaunchOutcome.returned (stop_local s).1 true ⟨none, "", "Failed to launch: " ++ e⟩ ∧
    (stop_local s).1.slot = none ∧ ("Failed to launch: " ++ e) ≠ "" := by
  refine ⟨?_, stop_local_clears s, append_left_ne_empty "Failed to launch: " e (by decide)⟩
  obtain ⟨wf, pf, npid, ng⟩ := env
  cases hw
  cases hp
  rfl

/-- Witness for C2 at a concrete spawn failure. -/
theorem run_local_spawn_fault_recovers_witness :
    run_local ⟨false, some "boom", 7, true⟩ ⟨some ⟨3, true, true⟩, []⟩ =
      LaunchOutcome.returned (stop_local ⟨some ⟨3, true, true⟩, []⟩).1 true
        ⟨none, "", "Failed to launch: " ++ "boom"⟩ ∧
    (stop_local ⟨some ⟨3, true, true⟩, []⟩).1.slot = none ∧
    ("Failed to launch: " ++ "boom") ≠ "" :=
  run_local_spawn_fault_recovers ⟨false, some "boom", 7, true⟩
    ⟨some ⟨3, true, true⟩, []⟩ "boom" rfl rfl

/-- C3 counterexample: a normally-exiting run whose stdout carries an
`IMAGE:` line and whose stderr carries an `EXEC_ERROR:` line yields a
result with BOTH a non-empty image and a non-empty error, violating the
claimed field-combination discipline. -/
theorem run_code_image_and_error_simultaneously :
    (run_code (.completed "IMAGE:abc" "EXEC_ERROR:TypeError: bad")).image_b64 = some "abc" ∧
    (run_code (.completed "IMAGE:abc" "EXEC_ERROR:TypeError: bad")).error ≠ "" := by
  decide

/-- C3 (amended): on the timeout and launch-fault outcomes the image field
is empty and the error field non-empty; on a normal exit the image and
error fields are computed independently from stdout and stderr, so a run
emitting both an `IMAGE:` line and an `EXEC_ERROR:` line yields both
fields non-empty at once. -/
theorem run_code_failure_field_discipline :
    (∀ m, (run_code (.exc m)).image_b64 = none ∧ (run_code (.exc m)).error ≠ "") ∧
    ((run_code .timeout).image_b64 = none ∧ (run_code .timeout).error ≠ "") ∧
    (∃ out err, (run_code (.completed out err)).image_b64 ≠ none ∧
      (run_code (.completed out err)).error ≠ "") := by
  refine ⟨fun m => ⟨rfl, append_left_ne_empty "Execution failed: " m (by decide)⟩,
    ⟨rfl, by decide⟩, ⟨"IMAGE:xyz", "EXEC_ERROR:NameError: q", by decide, by decide⟩⟩

/-- C4: the stdout parse of a normally-exiting bounded run is line-by-line:
the image payload is the remainder of the last `IMAGE:`-tagged line (if
any, last-wins), `INFO:` lines contribute their remainder to the log text,
every other line contributes verbatim, in original order; and `run_code`
on a completed event with empty stderr is exactly this parse of the
stripped stdout. -/
theorem stdout_line_protocol_parse (lines : List String) (out : String) :
    parseStdoutLoop lines none [] =
      ((lines.filterMap imgPayload).getLast?,
        (lines.filter (fun l => !pyStartswith l "IMAGE:")).map infoOrPlain) ∧
    run_code (.completed out "") =
      ⟨((pySplitlines (pyStrip out)).filterMap imgPayload).getLast?,
        pyJoinLines
          (((pySplitlines (pyStrip out)).filter (fun l => !pyStartswith l "IMAGE:")).map
            infoOrPlain),
        ""⟩ := by
  constructor
  · rw [parseStdoutLoop_eq, or_none_id]
    rfl
  · have hr : run_code (.completed out "") =
        ⟨(parseStdoutLoop (pySplitlines (pyStrip out)) none []).1,
          pyJoinLines (parseStdoutLoop (pySplitlines (pyStrip out)) none []).2, ""⟩ := rfl
    rw [hr, parseStdoutLoop_eq, or_none_id]
    rfl

/-- C5: the error translator is a pure function applying exactly one
category with first-match-wins over the fixed order (blocked import,
syntax error, undefined name, type mismatch, attribute error); every
output echoes the raw message as a substring; and any raw message
containing `ImportError` is rewritten to state that only the two allowed
imports (cv2 and numpy) are permitted.  The unmatched case of
`applyFirstRule` is the generic error wrapping. -/
theorem make_friendly_error_spec (raw : String) :
    make_friendly_error raw = applyFirstRule friendlyRules raw ∧
    strContains (make_friendly_error raw) raw = true ∧
    (strContains raw "ImportError" = true →
      strContains (make_friendly_error raw)
        "Only `import cv2` and `import numpy as np` are allowed." = true) := by
  refine ⟨?_, ?_, ?_⟩
  · simp only [make_friendly_error, applyFirstRule, friendlyRules, List.any_cons,
      List.any_nil, Bool.or_false]
  · unfold make_friendly_error
    repeat' split
    all_goals first
      | exact strContains_sandwich _ raw _
      | exact strContains_suffix0 _ raw
  · intro h
    unfold make_friendly_error
    rw [if_pos (by rw [h]; rfl)]
    rw [show ("\nOnly `import cv2` and `import numpy as np` are allowed." : String) =
      "\n" ++ "Only `import cv2` and `import numpy as np` are allowed." from by decide]
    apply strContains_parts _ _ ("ğŸš« Import blocked: " ++ raw ++ "\n").toList []
    simp [strToList_append, List.append_assoc]

/-- Witness for C5 at a concrete blocked-import message. -/
theorem make_friendly_error_spec_witness :
    strContains "ImportError: cv2" "ImportError" = true ∧
    strContains (make_friendly_error "ImportError: cv2")
      "Only `import cv2` and `import numpy as np` are allowed." = true :=
  ⟨by decide, (make_friendly_error_spec "ImportError: cv2").2.2 (by decide)⟩

/-- C6: a bounded run that exceeds the 10-second deadline returns no image,
empty logs (partial output discarded) and exactly the static templated
timeout message, which mentions the time budget and suggests checking for
infinite loops. -/
theorem run_code_timeout_static_template :
    run_code .timeout = ⟨none, "", timeoutMessage⟩ ∧
    strContains timeoutMessage "10 seconds" = true ∧
    strContains timeoutMessage "infinite loops" = true :=
  ⟨rfl, by decide, by decide⟩

/-- C7 counterexample: with a handle present in the registry whose process
has already exited (`poll()` not `None`), `stop_local` returns
`stopped=false` and issues no termination request, contradicting the claim
that a present handle always yields graceful termination and
`stopped=true`. -/
theorem stop_local_dead_handle_not_stopped :
    (stop_local ⟨some ⟨1, false, true⟩, []⟩).2 =
      ⟨false, "No local process was running."⟩ ∧
    (stop_local ⟨some ⟨1, false, true⟩, []⟩).1.log = [] := by
  decide

/-- C7 (amended): the stop operation atomically takes and clears the
registry slot (modelled as one atomic transition, as the Python code runs
it under the registry lock); it reports `stopped=true` exactly when the
taken handle's process was still running, in which case it requests
graceful termination and force-kills after the 3-second grace period;
when no handle was present — or the registered process had already
exited — it returns `stopped=false` with the explanatory message and
issues no termination; a second stop is always a `stopped=false` no-op,
so the operation is idempotent. -/
theorem stop_local_contract (s : RegState) :
    (stop_local s).1.slot = none ∧
    ((stop_local s).2.stopped = true ↔ ∃ p, s.slot = some p ∧ p.alive = true) ∧
    (∀ p, s.slot = some p → p.alive = true →
      (stop_local s).2 = ⟨true, "Local process stopped."⟩ ∧
      (p.exitsInGrace = true → (stop_local s).1.log = s.log ++ [StopAction.term p.pid]) ∧
      (p.exitsInGrace = false → (stop_local s).1.log = s.log ++ [StopAction.kill p.pid])) ∧
    ((∀ p, s.slot = some p → p.alive = false) →
      (stop_local s).2 = ⟨false, "No local process was running."⟩ ∧
      (stop_local s).1.log = s.log) ∧
    (stop_local (stop_local s).1).2.stopped = false := by
  obtain ⟨slot, log⟩ := s
  cases slot with
  | none => simp [stop_local]
  | some p =>
    obtain ⟨pid, alive, grace⟩ := p
    cases alive <;> cases grace <;> simp [stop_local]

/-- Witness for C7 at a running handle that ignores graceful termination. -/
theorem stop_local_contract_witness :
    (stop_local ⟨some ⟨5, true, false⟩, []⟩).2 = ⟨true, "Local process stopped."⟩ ∧
    (stop_local ⟨some ⟨5, true, false⟩, []⟩).1.log =
      ([] : List StopAction) ++ [StopAction.kill 5] := by
  have h := stop_local_contract ⟨some ⟨5, true, false⟩, []⟩
  exact ⟨(h.2.2.1 ⟨5, true, false⟩ rfl rfl).1, (h.2.2.1 ⟨5, true, false⟩ rfl rfl).2.2 rfl⟩

/-- C8: the registry is a single `Option` slot (structurally 0 or 1 handle,
every locked Python section modelled as one atomic transition); launching
a new foreground session while a live one is registered first issues
exactly one termination request against the prior process (graceful, or
escalated to kill) and, when the spawn succeeds, leaves exactly the new
handle registered — never zero, never two. -/
theorem run_local_active_replacement (env : LaunchEnv) (s : RegState) (p : ProcHandle)
    (hs : s.slot = some p) (hal : p.alive = true)
    (hw : env.writeFails = false) (hp : env.popenFails = none) :
    ∃ acts : List StopAction,
      (acts = [StopAction.term p.pid] ∨ acts = [StopAction.kill p.pid]) ∧
      run_local env s =
        LaunchOutcome.returned
          ⟨some ⟨env.newPid, true, env.newExitsInGrace⟩, s.log ++ acts⟩ false
          ⟨none,
            "Running on your desktop â€” an OpenCV window should appear.\nPress 'q' in the OpenCV window to quit.",
            ""⟩ := by
  obtain ⟨slot, log⟩ := s
  obtain ⟨pid, alive, grace⟩ := p
  obtain ⟨wf, pf, npid, ng⟩ := env
  cases hw
  cases hp
  simp only [RegState.mk.injEq] at hs ⊢
  subst hs
  cases hal
  cases grace with
  | true => exact ⟨[StopAction.term pid], Or.inl rfl, rfl⟩
  | false => exact ⟨[StopAction.kill pid], Or.inr rfl, rfl⟩

/-- Witness for C8: replacing a live foreground session. -/
theorem run_local_active_replacement_witness :
    ∃ acts : List StopAction,
      (acts = [StopAction.term 4] ∨ acts = [StopAction.kill 4]) ∧
      run_local ⟨false, none, 9, true⟩ ⟨some ⟨4, true, true⟩, []⟩ =
        LaunchOutcome.returned ⟨some ⟨9, true, true⟩, [] ++ acts⟩ false
          ⟨none,
            "Running on your desktop â€” an OpenCV window should appear.\nPress 'q' in the OpenCV window to quit.",
            ""⟩ :=
  run_local_active_replacement ⟨false, none, 9, true⟩ ⟨some ⟨4, true, true⟩, []⟩
    ⟨4, true, true⟩ rfl rfl rfl rfl

/-- C9: every uploaded asset's display name is reduced to its base name and
dropped when the sanitized name is empty: the written entries are exactly
the filterMap by `pathName`, every written entry name is non-empty and
contains no path separator, and `../../evil.txt` is materialized as
`evil.txt`. -/
theorem write_uploaded_files_sanitizes {α : Type} (files : List (String × α)) :
    write_uploaded_files (some files) =
      files.filterMap
        (fun pr => if pathName pr.1 = "" then none else some (pathName pr.1, pr.2)) ∧
    (∀ e ∈ write_uploaded_files (some files), e.1 ≠ "" ∧ ∀ c ∈ e.1.toList, c ≠ '/') ∧
    pathName "../../evil.txt" = "evil.txt" := by
  refine ⟨?_, ?_, by decide⟩
  · show write_uploaded_files_list files = _
    induction files with
    | nil => rfl
    | cons pr rest ih =>
      obtain ⟨n, c⟩ := pr
      by_cases hn : pathName n = ""
      · simp [write_uploaded_files_list, hn, List.filterMap_cons, ih]
      · simp [write_uploaded_files_list, hn, List.filterMap_cons, ih]
  · show ∀ e ∈ write_uploaded_files_list files, _
    induction files with
    | nil =>
      intro e he
      cases he
    | cons pr rest ih =>
      obtain ⟨n, c⟩ := pr
      intro e he
      by_cases hn : pathName n = ""
      · rw [show write_uploaded_files_list ((n, c) :: rest) =
            write_uploaded_files_list rest from by simp [write_uploaded_files_list, hn]] at he
        exact ih e he
      · rw [show write_uploaded_files_list ((n, c) :: rest) =
            (pathName n, c) :: write_uploaded_files_list rest from by
          simp [write_uploaded_files_list, hn]] at he
        rcases List.mem_cons.mp he with h1 | h2
        · subst h1
          exact ⟨hn, pathName_no_sep n⟩
        · exact ih e h2

/-- Witness for C9 at a directory-escaping display name plus an empty one. -/
theorem write_uploaded_files_sanitizes_witness :
    write_uploaded_files (some [("../../evil.txt", (1 : Nat)), ("", 2)]) =
      [("evil.txt", 1)] ∧
    ("evil.txt" : String) ≠ "" ∧ (∀ c ∈ ("evil.txt" : String).toList, c ≠ '/') := by
  have h := write_uploaded_files_sanitizes [("../../evil.txt", (1 : Nat)), ("", 2)]
  refine ⟨h.1.trans (by decide), ?_, ?_⟩
  · exact (h.2.1 ("evil.txt", 1) (by decide)).1
  · exact (h.2.1 ("evil.txt", 1) (by decide)).2

/-- C10: in the stderr pass of a normally-exiting bounded run the error
field is the translation of the LAST `EXEC_ERROR:`-tagged line only;
earlier `EXEC_ERROR:` lines are overwritten and contribute nothing to the
log text, while every untagged stderr line is appended to the logs in
order; concretely, a stderr with two `EXEC_ERROR:` lines yields exactly
the translation of the second. -/
theorem stderr_last_exec_error_wins (lines logs0 : List String) :
    parseStderrLoop lines "" logs0 =
      (((lines.filterMap errPayload).getLast?).elim "" make_friendly_error,
        logs0 ++ lines.filter (fun l => !pyStartswith l "EXEC_ERROR:")) ∧
    run_code (.completed "" "EXEC_ERROR:TypeError: a\nEXEC_ERROR:NameError: b") =
      ⟨none, "", make_friendly_error "NameError: b"⟩ :=
  ⟨parseStderrLoop_eq lines "" logs0, by decide⟩

end Sandbox
